import Mathlib

/-!
Verification of the Neon-break-game simulation core (src/game2.js).

The JavaScript source is shallowly embedded over ℚ.  Floating-point
numbers are modelled as exact rationals; the transcendental values the
code obtains from `Math.cos` / `Math.sin` / `Math.atan2` (always used to
build a unit direction vector) enter the embedding as explicit direction
parameters `(c, s)` constrained by `c^2 + s^2 = 1` in the theorems, and
`Math.random` rolls enter as explicit rational parameters.  Magnitudes
are compared in squared form (`vx^2 + vy^2` against `speed^2`), which is
equivalent to comparing `|v|` with `speed` for non-negative speeds.
-/

namespace NeonBreak

/-- Embedding of `clamp(v, a, b) = Math.max(a, Math.min(b, v))` (game2.js:39). -/
def clamp (v a b : ℚ) : ℚ := max a (min b v)

/-- `PADDLE_BASE_WIDTH` (game2.js:24). -/
def PADDLE_BASE_WIDTH : ℚ := 120

/-- `PADDLE_HEIGHT` (game2.js:25). -/
def PADDLE_HEIGHT : ℚ := 16

/-- `BALL_RADIUS` (game2.js:26). -/
def BALL_RADIUS : ℚ := 6

/-- `POWER_CHANCE = 0.18` (game2.js:31). -/
def POWER_CHANCE : ℚ := 18 / 100

/-- The five members of the `STATE` enumeration (game2.js:34). -/
inductive GState where
  | READY
  | PLAYING
  | PAUSED
  | LEVEL_COMPLETE
  | GAME_OVER
deriving DecidableEq

/-- The per-frame input snapshot read by the core (game2.js:46-55). -/
structure InputS where
  left : Bool
  right : Bool
  launch : Bool
  pointerDown : Bool
  pointerX : ℚ
deriving DecidableEq

/-- Axis-aligned rectangle, as returned by `Paddle.getRect` (game2.js:228-230). -/
structure RectS where
  x : ℚ
  y : ℚ
  w : ℚ
  h : ℚ
deriving DecidableEq

/-- Embedding of `circleRectCollision` (game2.js:783-789). -/
def circleRectCollision (cx cy r rx ry rw rh : ℚ) : Bool :=
  let closestX := clamp cx rx (rx + rw)
  let closestY := clamp cy ry (ry + rh)
  let dx := cx - closestX
  let dy := cy - closestY
  decide (dx * dx + dy * dy < r * r + 1 / 10000)

/-- The `Paddle` state (game2.js:164-173); the cosmetic `color` field is omitted. -/
structure PaddleS where
  width : ℚ
  height : ℚ
  x : ℚ
  y : ℚ
  speed : ℚ
  expireTimer : ℚ
deriving DecidableEq

/-- `Paddle` constructor (game2.js:165-173), parametric in the canvas size
`W × H` (the HTML canvas dimensions are not part of the source file). -/
def mkPaddle (W H : ℚ) : PaddleS :=
  { width := PADDLE_BASE_WIDTH
    height := PADDLE_HEIGHT
    x := W / 2 - PADDLE_BASE_WIDTH / 2
    y := H - 36
    speed := 960
    expireTimer := 0 }

/-- `Paddle.getRect` (game2.js:228-230). -/
def PaddleS.getRect (p : PaddleS) : RectS :=
  ⟨p.x, p.y, p.width, p.height⟩

/-- Movement phase of `Paddle.update(dt, input)` (game2.js:177-195):
pointer-drag easing overrides keyboard movement; keyboard / idle branches
clamp `x` into `[12, W - 12 - width]`. -/
def paddleMove (W dt : ℚ) (inp : InputS) (p : PaddleS) : PaddleS :=
  if inp.pointerDown then
    { p with
        x := p.x +
          (clamp (inp.pointerX - p.width / 2) 12 (W - 12 - p.width) - p.x) * clamp (dt * 12) 0 1 }
  else if ((if inp.right then (1 : ℚ) else 0) - (if inp.left then 1 else 0)) ≠ 0 then
    { p with
        x := clamp
          (p.x + ((if inp.right then (1 : ℚ) else 0) - (if inp.left then 1 else 0)) * p.speed * dt)
          12 (W - 12 - p.width) }
  else
    { p with x := clamp p.x 12 (W - 12 - p.width) }

/-- Width-expiration phase of `Paddle.update(dt, input)` (game2.js:198-203):
the timer is decremented and on elapse the width reverts to the base
value. -/
def paddleTimer (dt : ℚ) (p : PaddleS) : PaddleS :=
  if p.expireTimer > 0 then
    if p.expireTimer - dt ≤ 0 then
      { p with expireTimer := p.expireTimer - dt, width := PADDLE_BASE_WIDTH }
    else { p with expireTimer := p.expireTimer - dt }
  else p

/-- Embedding of `Paddle.update(dt, input)` (game2.js:175-204): the movement
phase followed by the width-expiration phase. -/
def PaddleS.updateP (W dt : ℚ) (inp : InputS) (p : PaddleS) : PaddleS :=
  paddleTimer dt (paddleMove W dt inp p)

/-- Embedding of `Paddle.applyPower(type)` (game2.js:206-211): for the
`paddle` power-up the width becomes `1.6 ×` base and the 12-second expiration
timer starts; the position `x` is NOT re-clamped. -/
def PaddleS.applyPowerP (isPaddleType : Bool) (p : PaddleS) : PaddleS :=
  if isPaddleType then
    { p with width := PADDLE_BASE_WIDTH * (8 / 5), expireTimer := 12 }
  else p

/-- The `Ball` state (game2.js:234-246); cosmetic `spin` / `color` omitted. -/
structure BallS where
  x : ℚ
  y : ℚ
  vx : ℚ
  vy : ℚ
  radius : ℚ
  speed : ℚ
  stuck : Bool
deriving DecidableEq

/-- `Ball` constructor (game2.js:235-246); the JS default speed argument is 360. -/
def mkBall (x y speed : ℚ) : BallS :=
  { x := x, y := y, vx := 0, vy := 0, radius := BALL_RADIUS, speed := speed, stuck := true }

/-- `Ball.attachToPaddle` (game2.js:248-252). -/
def attachToPaddle (p : PaddleS) (b : BallS) : BallS :=
  { b with stuck := true, x := p.x + p.width / 2, y := p.y - b.radius - 2 }

/-- Left-wall bounce inside `Ball.update` (game2.js:271-273). -/
def wallLeft (b : BallS) : BallS :=
  if b.x - b.radius ≤ 8 then { b with x := 8 + b.radius, vx := |b.vx| } else b

/-- Right-wall bounce inside `Ball.update` (game2.js:274-276). -/
def wallRight (W : ℚ) (b : BallS) : BallS :=
  if b.x + b.radius ≥ W - 8 then { b with x := W - 8 - b.radius, vx := -|b.vx| } else b

/-- Top-wall bounce inside `Ball.update` (game2.js:277-279). -/
def wallTop (b : BallS) : BallS :=
  if b.y - b.radius ≤ 8 then { b with y := 8 + b.radius, vy := |b.vy| } else b

/-- Position integration followed by the three wall bounces, i.e. the body of
`Ball.update(dt)` for a free ball (game2.js:266-281).  The bottom wall performs
no collision. -/
def ballFreeMove (W dt : ℚ) (b : BallS) : BallS :=
  wallTop (wallRight W (wallLeft { b with x := b.x + b.vx * dt, y := b.y + b.vy * dt }))

/-- `Ball.update(dt)` (game2.js:266-281): a stuck ball is left unchanged. -/
def BallS.updateB (W dt : ℚ) (b : BallS) : BallS :=
  if b.stuck then b else ballFreeMove W dt b

/-- Launch of a stuck ball inside `Game.update` (game2.js:580-588): the
scalar speed is multiplied by 1.08 when the speed-boost timer is active
(with NO clamping), and the velocity is set to `speed · (cos a, sin a)` for
the randomized upward angle `a`; `(c, s)` stands for `(cos a, sin a)`. -/
def ballLaunch (boostActive : Bool) (c s : ℚ) (b : BallS) : BallS :=
  let spd := b.speed * (if boostActive then 27 / 25 else 1)
  { b with speed := spd, vx := spd * c, vy := spd * s, stuck := false }

/-- Ball–paddle bounce resolution inside `Game.update` (game2.js:598-610),
applied when `circleRectCollision` holds against the paddle rectangle `r`:
the speed is multiplied by 1.08 when boosted and clamped into `[200, 820]`,
the velocity becomes `speed · (cos bounceAngle, sin bounceAngle)` — `(c, s)`
stands for that unit direction — and the ball is nudged just above the
paddle surface. -/
def paddleBounce (boostActive : Bool) (r : RectS) (c s : ℚ) (b : BallS) : BallS :=
  let mult : ℚ := if boostActive then 27 / 25 else 1
  let spd := clamp (b.speed * mult) 200 820
  { b with speed := spd, vx := spd * c, vy := spd * s, y := r.y - b.radius - 1 }

/-- The `Brick` state (game2.js:315-320). -/
structure BrickS where
  x : ℚ
  y : ℚ
  w : ℚ
  h : ℚ
  color : String
  hp : ℤ
  alive : Bool
deriving DecidableEq

/-- `Brick` constructor (game2.js:316-320). -/
def mkBrick (x y w h : ℚ) (color : String) (hp : ℤ) : BrickS :=
  { x := x, y := y, w := w, h := h, color := color, hp := hp, alive := true }

/-- `Brick.hit()` (game2.js:322-325): decrement `hp`; when it reaches `≤ 0`
the brick is marked dead, otherwise `alive` is untouched. -/
def BrickS.hitB (br : BrickS) : BrickS :=
  let hp1 := br.hp - 1
  { br with hp := hp1, alive := if hp1 ≤ 0 then false else br.alive }

/-- Horizontal penetration depth of ball `b` into brick `br` (game2.js:620). -/
def brickOverlapX (b : BallS) (br : BrickS) : ℚ :=
  min (b.x + b.radius - br.x) (br.x + br.w - (b.x - b.radius))

/-- Vertical penetration depth of ball `b` into brick `br` (game2.js:621). -/
def brickOverlapY (b : BallS) (br : BrickS) : ℚ :=
  min (b.y + b.radius - br.y) (br.y + br.h - (b.y - b.radius))

/-- Minimum-translation-vector reflection of the ball off a brick
(game2.js:622-632): the velocity component of the axis with smaller
penetration is negated and the ball is nudged out by the overlap. -/
def brickReflect (b : BallS) (br : BrickS) : BallS :=
  if brickOverlapX b br < brickOverlapY b br then
    { b with vx := -b.vx,
             x := b.x + (if b.x < br.x + br.w / 2 then (-1 : ℚ) else 1) * brickOverlapX b br }
  else
    { b with vy := -b.vy,
             y := b.y + (if b.y < br.y + br.h / 2 then (-1 : ℚ) else 1) * brickOverlapY b br }

/-- Post-brick-bounce speed feedback (game2.js:635): the scalar speed is
multiplied by 1.01 and clamped into `[220, 900]`; the velocity vector is NOT
touched by this step. -/
def speedAdjust (b : BallS) : BallS :=
  { b with speed := clamp (b.speed * (101 / 100)) 220 900 }

/-- Full ball/brick resolution of one brick collision (game2.js:618-637):
reflect and nudge the ball, apply the speed feedback, and hit the brick. -/
def brickResolve (b : BallS) (br : BrickS) : BallS × BrickS :=
  (speedAdjust (brickReflect b br), br.hitB)

/-- The closed set of power-up types (game2.js:345, 645). -/
inductive PKind where
  | multi
  | paddle
  | speed
deriving DecidableEq

/-- The `PowerUp` state (game2.js:346-353). -/
structure PowerUpS where
  x : ℚ
  y : ℚ
  ptype : PKind
  radius : ℚ
  vy : ℚ
  alive : Bool
  duration : ℚ
deriving DecidableEq

/-- `PowerUp` constructor (game2.js:347-353). -/
def mkPowerUp (x y : ℚ) (t : PKind) : PowerUpS :=
  { x := x, y := y, ptype := t, radius := 10, vy := 90, alive := true
    duration := if t = PKind.speed then 10 else if t = PKind.paddle then 12 else 0 }

/-- One ball–brick collision step of `Game.update` (game2.js:618-648):
resolve the bounce, award the fixed 100-point score gain (awarded on EVERY
hit), and, when the brick was destroyed and the `Math.random()` roll `roll`
is below `POWER_CHANCE`, spawn a power-up of the rolled type `pt` at the
brick's center.  Returns (ball, brick, score gain, optional drop). -/
def brickCollisionStep (roll : ℚ) (pt : PKind) (b : BallS) (br : BrickS) :
    BallS × BrickS × ℤ × Option PowerUpS :=
  let res := brickResolve b br
  let drop : Option PowerUpS :=
    if res.2.alive = false ∧ roll < POWER_CHANCE then
      some (mkPowerUp (br.x + br.w / 2) (br.y + br.h / 2) pt)
    else none
  (res.1, res.2, 100, drop)

/-- The `speed` power-up effect on one ball (game2.js:736-741): the speed is
multiplied by 1.18 and clamped into `[300, 1000]`, and the velocity is
recomputed along the ball's current heading at the new magnitude; `(c, s)`
stands for `(cos ang, sin ang)` with `ang = atan2(vy, vx)`. -/
def speedBoostBall (c s : ℚ) (b : BallS) : BallS :=
  let spd := clamp (b.speed * (59 / 50)) 300 1000
  { b with speed := spd, vx := spd * c, vy := spd * s }

/-- A ball spawned by the `multi` power-up (game2.js:724-727):
`new Ball(x, y, spd)` followed by setting the velocity to `spd · u` and
`stuck = false`, where `u` stands for `(cos a, sin a)` of the offset angle. -/
def mkMultiBall (x y spd : ℚ) (u : ℚ × ℚ) : BallS :=
  { x := x, y := y, vx := spd * u.1, vy := spd * u.2, radius := BALL_RADIUS,
    speed := spd, stuck := false }

/-- The list of balls spawned by the `multi` power-up (game2.js:716-729): for
every current ball two additional balls at `x ± 8`, with speed
`clamp(speed · 1.02, 260, 920)` and headings `atan2(vy,vx) ± 0.18`; the
direction pair for each source ball is supplied in `dirs`. -/
def multiBallNewBalls (dirs : List ((ℚ × ℚ) × (ℚ × ℚ))) (balls : List BallS) :
    List BallS :=
  (balls.zip dirs).flatMap fun p =>
    let spd := clamp (p.1.speed * (102 / 100)) 260 920
    [mkMultiBall (p.1.x + 8) p.1.y spd p.2.1, mkMultiBall (p.1.x - 8) p.1.y spd p.2.2]

/-- The `multi` power-up effect (game2.js:716-731): the spawned balls are
appended to the current ball list. -/
def applyMultiBall (dirs : List ((ℚ × ℚ) × (ℚ × ℚ))) (balls : List BallS) :
    List BallS :=
  balls ++ multiBallNewBalls dirs balls

/-- Raw mirrored velocity of `Ball.reflect` (game2.js:286-288):
`v - 2 (v·n) n`. -/
def reflectRaw (b : BallS) (nx ny : ℚ) : ℚ × ℚ :=
  (b.vx - 2 * (b.vx * nx + b.vy * ny) * nx, b.vy - 2 * (b.vx * nx + b.vy * ny) * ny)

/-- The guarded magnitude `Math.hypot(vx, vy) || 1` of `Ball.reflect`
(game2.js:291): a zero magnitude is replaced by 1. -/
def reflectGuard (m : ℚ) : ℚ :=
  if m = 0 then 1 else m

/-- Embedding of `Ball.reflect(nx, ny, speedMultiplier)` (game2.js:284-295).
The parameter `m` stands for the value `Math.hypot(rx, ry)` of the mirrored
velocity `(rx, ry)`; it is constrained by `m ≥ 0` and `m² = rx² + ry²` in the
theorems.  The mirrored vector is rescaled to `speed · mult` through the
guarded magnitude. -/
def BallS.reflectB (b : BallS) (nx ny mult m : ℚ) : BallS :=
  let r := reflectRaw b nx ny
  let mag := reflectGuard m
  let desired := b.speed * mult
  { b with vx := r.1 / mag * desired, vy := r.2 / mag * desired }

/-- The `Game` world state (game2.js:473-495); collaborator-facing fields
(input, sound, HUD, timing) are out of scope. -/
structure GameS where
  state : GState
  currentLevel : ℕ
  bricks : List BrickS
  paddle : PaddleS
  balls : List BallS
  powerups : List PowerUpS
  lives : ℤ
  score : ℤ
  speedBoostTimer : ℚ
  multiBallTimer : ℚ
deriving DecidableEq

/-- `Game.togglePause()` (game2.js:545-548): swaps `PLAYING` and `PAUSED`,
otherwise does nothing (the pause-button label is a DOM detail, out of
scope). -/
def togglePause (g : GameS) : GameS :=
  if g.state = GState.PLAYING then { g with state := GState.PAUSED }
  else if g.state = GState.PAUSED then { g with state := GState.PLAYING }
  else g

/-- The ball-loss sweep of `Game.update` (game2.js:672-677): every ball with
`y - radius > HEIGHT + 8` is removed. -/
def ballLossSweep (H : ℚ) (balls : List BallS) : List BallS :=
  balls.filter fun b => !decide (b.y - b.radius > H + 8)

/-- The fresh paddle-attached replacement ball of the life-loss branch
(game2.js:686-688): `new Ball(paddle.x + width/2, paddle.y - BALL_RADIUS - 2)`
(default speed 360) followed by `attachToPaddle`. -/
def freshPaddleBall (p : PaddleS) : BallS :=
  attachToPaddle p (mkBall (p.x + p.width / 2) (p.y - BALL_RADIUS - 2) 360)

/-- The life/loss bookkeeping of `Game.update` (game2.js:680-692): when no
balls remain, decrement lives; go to `GAME_OVER` when `lives ≤ 0`, otherwise
spawn one fresh paddle-attached ball and go to `READY`.  No other world field
is touched. -/
def lifeLossStep (g : GameS) : GameS :=
  if g.balls.length = 0 then
    let lives1 := g.lives - 1
    if lives1 ≤ 0 then { g with lives := lives1, state := GState.GAME_OVER }
    else { g with lives := lives1,
                  balls := [freshPaddleBall g.paddle],
                  state := GState.READY }
  else g

/-- The ball-loss sweep followed by the life/loss bookkeeping
(game2.js:672-692). -/
def lostBallsStep (H : ℚ) (g : GameS) : GameS :=
  lifeLossStep { g with balls := ballLossSweep H g.balls }

/-!
Heap model for `LevelManager.getBricksForLevel` (game2.js:455-465).

The JS method deep-clones the stored level template through a JSON
round-trip whose reviver runs `new Brick(v.x, v.y, v.w, v.h, v.color, v.hp)`
and copies `alive`, so every call allocates fresh `Brick` objects holding
the same primitive field values.  Object identity is modelled by an explicit
store: a list of `BrickS` values addressed by index, allocation appending at
the end.  The level templates are lists of addresses into the store. -/

/-- Default brick used for out-of-range store reads. -/
def defaultBrick : BrickS :=
  { x := 0, y := 0, w := 0, h := 0, color := "", hp := 0, alive := true }

/-- Read the brick stored at address `a`. -/
def storeGet (st : List BrickS) (a : ℕ) : BrickS :=
  st.getD a defaultBrick

/-- The reviver of `getBricksForLevel` (game2.js:458-462): reconstruct a
fresh `Brick` from the serialized primitive fields, copying `alive`. -/
def cloneBrick (br : BrickS) : BrickS :=
  { x := br.x, y := br.y, w := br.w, h := br.h, color := br.color,
    hp := br.hp, alive := br.alive }

/-- Consecutive fresh addresses `[s, s+1, …, s+L-1]`. -/
def addrRange : ℕ → ℕ → List ℕ
  | _, 0 => []
  | s, L + 1 => s :: addrRange (s + 1) L

/-- Allocate clones of the given brick values at the end of the store,
returning the extended store and the fresh addresses. -/
def allocBricks (st : List BrickS) (vals : List BrickS) : List BrickS × List ℕ :=
  (st ++ vals.map cloneBrick, addrRange st.length vals.length)

/-- Heap-model embedding of `LevelManager.getBricksForLevel(n)`
(game2.js:455-465): read the template addresses of level `n` (1-based),
fetch their current values, and allocate fresh clones. -/
def getBricksForLevelH (levels : List (List ℕ)) (n : ℕ) (st : List BrickS) :
    List BrickS × List ℕ :=
  allocBricks st (((levels.getD (n - 1) []).map (storeGet st)))

/-- In-place mutation of the brick object at address `a` (e.g. `brick.hit()`
or clearing `alive`). -/
def mutateAt (st : List BrickS) (a : ℕ) (f : BrickS → BrickS) : List BrickS :=
  st.set a (f (storeGet st a))

/-! ### Helper lemmas -/

/-- `clamp` never goes below its lower bound. -/
theorem clamp_lower (v a b : ℚ) : a ≤ clamp v a b :=
  le_max_left _ _

/-- `clamp` never exceeds its upper bound when the band is nonempty. -/
theorem clamp_upper (v a b : ℚ) (h : a ≤ b) : clamp v a b ≤ b :=
  max_le h (min_le_left _ _)

/-- Scaling a unit vector by `t` yields a vector of squared magnitude `t²`. -/
theorem unit_dir_sq (c s t : ℚ) (hcs : c ^ 2 + s ^ 2 = 1) :
    (t * c) ^ 2 + (t * s) ^ 2 = t ^ 2 := by
  have h : (t * c) ^ 2 + (t * s) ^ 2 = t ^ 2 * (c ^ 2 + s ^ 2) := by ring
  rw [h, hcs, mul_one]

/-- `wallLeft` preserves the squared velocity magnitude and the speed. -/
theorem wallLeft_mag (b : BallS) :
    (wallLeft b).vx ^ 2 + (wallLeft b).vy ^ 2 = b.vx ^ 2 + b.vy ^ 2 ∧
    (wallLeft b).speed = b.speed := by
  unfold wallLeft
  split <;> simp [sq_abs]

/-- `wallRight` preserves the squared velocity magnitude and the speed. -/
theorem wallRight_mag (W : ℚ) (b : BallS) :
    (wallRight W b).vx ^ 2 + (wallRight W b).vy ^ 2 = b.vx ^ 2 + b.vy ^ 2 ∧
    (wallRight W b).speed = b.speed := by
  unfold wallRight
  split <;> simp [sq_abs]

/-- `wallTop` preserves the squared velocity magnitude and the speed. -/
theorem wallTop_mag (b : BallS) :
    (wallTop b).vx ^ 2 + (wallTop b).vy ^ 2 = b.vx ^ 2 + b.vy ^ 2 ∧
    (wallTop b).speed = b.speed := by
  unfold wallTop
  split <;> simp [sq_abs]

/-! ### Claim theorems -/

/-- Claim C6: `togglePause()` swaps `PLAYING` and `PAUSED` and is a no-op
(leaving the whole world state unchanged, never an error) in `READY`,
`LEVEL_COMPLETE` and `GAME_OVER`. -/
theorem C6_togglePause (g : GameS) :
    togglePause g =
      (match g.state with
       | GState.PLAYING => { g with state := GState.PAUSED }
       | GState.PAUSED => { g with state := GState.PLAYING }
       | _ => g) := by
  cases hg : g.state <;> simp [togglePause, hg]

/-- Claim C9: velocity normalization in `Ball.reflect` is total: the guarded
magnitude `hypot(vx, vy) || 1` is positive for every mirrored velocity (the
zero vector is treated as magnitude 1), so the renormalized components are
never produced by a division by zero.  `m` is the value of
`Math.hypot` on the mirrored velocity, i.e. `m ≥ 0` and `m²` is the squared
magnitude. -/
theorem C9_reflect_guard (b : BallS) (nx ny m : ℚ)
    (hm0 : 0 ≤ m)
    (hm : m * m = (reflectRaw b nx ny).1 ^ 2 + (reflectRaw b nx ny).2 ^ 2) :
    reflectGuard m ≠ 0 ∧ 0 < reflectGuard m ∧
    (reflectRaw b nx ny = (0, 0) → reflectGuard m = 1) := by
  by_cases h : m = 0
  · refine ⟨by simp [reflectGuard, h], by simp [reflectGuard, h], fun _ => by
      simp [reflectGuard, h]⟩
  · have hpos : 0 < m := lt_of_le_of_ne hm0 (Ne.symm h)
    refine ⟨by simp [reflectGuard, h], by simpa [reflectGuard, h] using hpos,
      fun hz => ?_⟩
    exfalso
    apply h
    rw [hz] at hm
    simp at hm
    nlinarith [hm]

/-- Witness for C9 at the mirrored velocity `(3, -4)` of magnitude 5. -/
theorem C9_witness :
    (0 : ℚ) ≤ 5 ∧
    (5 : ℚ) * 5 = (reflectRaw ⟨0, 0, 3, 4, 6, 360, false⟩ 0 (-1)).1 ^ 2 +
      (reflectRaw ⟨0, 0, 3, 4, 6, 360, false⟩ 0 (-1)).2 ^ 2 ∧
    (reflectGuard 5 ≠ 0 ∧ 0 < reflectGuard 5 ∧
      (reflectRaw ⟨0, 0, 3, 4, 6, 360, false⟩ 0 (-1) = (0, 0) → reflectGuard 5 = 1)) :=
  ⟨by norm_num, by norm_num [reflectRaw],
    C9_reflect_guard ⟨0, 0, 3, 4, 6, 360, false⟩ 0 (-1) 5 (by norm_num)
      (by norm_num [reflectRaw])⟩

/-- Claim C4: when a `PLAYING` frame's ball-loss sweep leaves zero balls,
lives are decremented by one; if lives reach zero the state becomes
`GAME_OVER`, otherwise exactly one fresh paddle-attached ball is spawned and
the state becomes `READY`. -/
theorem C4_life_loss (H : ℚ) (g : GameS)
    (hb : ballLossSweep H g.balls = []) (hl : 1 ≤ g.lives) :
    (lostBallsStep H g).lives = g.lives - 1 ∧
    (g.lives = 1 → (lostBallsStep H g).state = GState.GAME_OVER) ∧
    (2 ≤ g.lives →
      (lostBallsStep H g).state = GState.READY ∧
      (lostBallsStep H g).balls = [freshPaddleBall g.paddle] ∧
      (freshPaddleBall g.paddle).stuck = true) := by
  unfold lostBallsStep lifeLossStep
  rw [hb]
  by_cases hc : g.lives - 1 ≤ 0
  · refine ⟨by simp [hc], fun _ => by simp [hc], fun h2 => absurd hc (by omega)⟩
  · refine ⟨by simp [hc], fun h1 => absurd hc (by omega), fun _ => ?_⟩
    exact ⟨by simp [hc], by simp [hc], by simp [freshPaddleBall, attachToPaddle]⟩

/-- Witness for C4: zero balls with a single remaining life ends the game. -/
theorem C4_witness :
    ballLossSweep 600 (GameS.mk GState.PLAYING 1 [] (mkPaddle 800 600) [] [] 1 0 0 0).balls
        = [] ∧
    (1 : ℤ) ≤ (GameS.mk GState.PLAYING 1 [] (mkPaddle 800 600) [] [] 1 0 0 0).lives ∧
    ((lostBallsStep 600 (GameS.mk GState.PLAYING 1 [] (mkPaddle 800 600) [] [] 1 0 0 0)).lives
        = (GameS.mk GState.PLAYING 1 [] (mkPaddle 800 600) [] [] 1 0 0 0).lives - 1 ∧
      ((GameS.mk GState.PLAYING 1 [] (mkPaddle 800 600) [] [] 1 0 0 0).lives = 1 →
        (lostBallsStep 600 (GameS.mk GState.PLAYING 1 [] (mkPaddle 800 600) [] [] 1 0 0 0)).state
          = GState.GAME_OVER) ∧
      (2 ≤ (GameS.mk GState.PLAYING 1 [] (mkPaddle 800 600) [] [] 1 0 0 0).lives →
        (lostBallsStep 600 (GameS.mk GState.PLAYING 1 [] (mkPaddle 800 600) [] [] 1 0 0 0)).state
            = GState.READY ∧
        (lostBallsStep 600 (GameS.mk GState.PLAYING 1 [] (mkPaddle 800 600) [] [] 1 0 0 0)).balls
            = [freshPaddleBall (GameS.mk GState.PLAYING 1 [] (mkPaddle 800 600) [] [] 1 0 0 0).paddle] ∧
        (freshPaddleBall (GameS.mk GState.PLAYING 1 [] (mkPaddle 800 600) [] [] 1 0 0 0).paddle).stuck
            = true)) :=
  ⟨rfl, by norm_num,
    C4_life_loss 600 (GameS.mk GState.PLAYING 1 [] (mkPaddle 800 600) [] [] 1 0 0 0)
      rfl (by norm_num)⟩

/-- Claim C10: when zero balls remain and at least one life is left after the
decrement, the single replacement ball is stuck to the paddle with baseline
speed 360 (regardless of the speed-boost timer, over which `g` is fully
quantified), and score, level index, bricks, power-up drops and
`speedBoostTimer` are unchanged by the life-loss transition. -/
theorem C10_life_loss_effects (H : ℚ) (g : GameS)
    (hb : ballLossSweep H g.balls = []) (hl : 2 ≤ g.lives) :
    (lostBallsStep H g).balls = [freshPaddleBall g.paddle] ∧
    (freshPaddleBall g.paddle).stuck = true ∧
    (freshPaddleBall g.paddle).speed = 360 ∧
    (freshPaddleBall g.paddle).x = g.paddle.x + g.paddle.width / 2 ∧
    (freshPaddleBall g.paddle).y = g.paddle.y - BALL_RADIUS - 2 ∧
    (lostBallsStep H g).score = g.score ∧
    (lostBallsStep H g).currentLevel = g.currentLevel ∧
    (lostBallsStep H g).bricks = g.bricks ∧
    (lostBallsStep H g).powerups = g.powerups ∧
    (lostBallsStep H g).speedBoostTimer = g.speedBoostTimer := by
  have hc : ¬ g.lives - 1 ≤ 0 := by omega
  unfold lostBallsStep lifeLossStep
  rw [hb]
  refine ⟨by simp [hc], by simp [freshPaddleBall, attachToPaddle],
    by simp [freshPaddleBall, attachToPaddle, mkBall],
    by simp [freshPaddleBall, attachToPaddle],
    by simp [freshPaddleBall, attachToPaddle, mkBall, BALL_RADIUS],
    by simp [hc], by simp [hc], by simp [hc], by simp [hc], by simp [hc]⟩

/-- Witness for C10 with 3 lives and an active speed-boost timer. -/
theorem C10_witness :
    ballLossSweep 600 (GameS.mk GState.PLAYING 2 [] (mkPaddle 800 600) [] [] 3 500 7 0).balls
        = [] ∧
    (2 : ℤ) ≤ (GameS.mk GState.PLAYING 2 [] (mkPaddle 800 600) [] [] 3 500 7 0).lives ∧
    ((lostBallsStep 600 (GameS.mk GState.PLAYING 2 [] (mkPaddle 800 600) [] [] 3 500 7 0)).balls
        = [freshPaddleBall (mkPaddle 800 600)] ∧
      (freshPaddleBall (mkPaddle 800 600)).stuck = true ∧
      (freshPaddleBall (mkPaddle 800 600)).speed = 360 ∧
      (freshPaddleBall (mkPaddle 800 600)).x = (mkPaddle 800 600).x + (mkPaddle 800 600).width / 2 ∧
      (freshPaddleBall (mkPaddle 800 600)).y = (mkPaddle 800 600).y - BALL_RADIUS - 2 ∧
      (lostBallsStep 600 (GameS.mk GState.PLAYING 2 [] (mkPaddle 800 600) [] [] 3 500 7 0)).score = 500 ∧
      (lostBallsStep 600 (GameS.mk GState.PLAYING 2 [] (mkPaddle 800 600) [] [] 3 500 7 0)).currentLevel = 2 ∧
      (lostBallsStep 600 (GameS.mk GState.PLAYING 2 [] (mkPaddle 800 600) [] [] 3 500 7 0)).bricks = [] ∧
      (lostBallsStep 600 (GameS.mk GState.PLAYING 2 [] (mkPaddle 800 600) [] [] 3 500 7 0)).powerups = [] ∧
      (lostBallsStep 600 (GameS.mk GState.PLAYING 2 [] (mkPaddle 800 600) [] [] 3 500 7 0)).speedBoostTimer = 7) :=
  ⟨rfl, by norm_num,
    C10_life_loss_effects 600 (GameS.mk GState.PLAYING 2 [] (mkPaddle 800 600) [] [] 3 500 7 0)
      rfl (by norm_num)⟩

/-- Claim C1 (amended): the `|velocity| = speed` invariant (stated in squared
form) holds after launch, paddle bounce and speed boost (whose `(c, s)` is a
unit direction since it is a cosine/sine pair), and is preserved by the wall
bounces of `Ball.update`; but a brick bounce only flips one velocity
component while multiplying the scalar speed by 1.01 (clamped to
`[220, 900]`) without renormalizing, so after a brick bounce the velocity
magnitude equals the pre-hit speed, not the updated speed field. -/
theorem C1_speed_invariant_amended (c s : ℚ) (hcs : c ^ 2 + s ^ 2 = 1)
    (boost : Bool) (r : RectS) (W dt : ℚ) (b : BallS) :
    ((ballLaunch boost c s b).vx ^ 2 + (ballLaunch boost c s b).vy ^ 2
        = (ballLaunch boost c s b).speed ^ 2) ∧
    ((paddleBounce boost r c s b).vx ^ 2 + (paddleBounce boost r c s b).vy ^ 2
        = (paddleBounce boost r c s b).speed ^ 2) ∧
    ((speedBoostBall c s b).vx ^ 2 + (speedBoostBall c s b).vy ^ 2
        = (speedBoostBall c s b).speed ^ 2) ∧
    (b.vx ^ 2 + b.vy ^ 2 = b.speed ^ 2 →
      (BallS.updateB W dt b).vx ^ 2 + (BallS.updateB W dt b).vy ^ 2
        = (BallS.updateB W dt b).speed ^ 2) ∧
    (∀ br : BrickS,
      (brickResolve b br).1.vx ^ 2 + (brickResolve b br).1.vy ^ 2
          = b.vx ^ 2 + b.vy ^ 2 ∧
      (brickResolve b br).1.speed = clamp (b.speed * (101 / 100)) 220 900) := by
  refine ⟨?_, ?_, ?_, ?_, ?_⟩
  · simp only [ballLaunch]
    exact unit_dir_sq c s _ hcs
  · simp only [paddleBounce]
    exact unit_dir_sq c s _ hcs
  · simp only [speedBoostBall]
    exact unit_dir_sq c s _ hcs
  · intro hinv
    unfold BallS.updateB
    split
    · exact hinv
    · unfold ballFreeMove
      have h0 : ({ b with x := b.x + b.vx * dt, y := b.y + b.vy * dt } : BallS).vx ^ 2 +
          ({ b with x := b.x + b.vx * dt, y := b.y + b.vy * dt } : BallS).vy ^ 2 =
          ({ b with x := b.x + b.vx * dt, y := b.y + b.vy * dt } : BallS).speed ^ 2 := hinv
      set b0 : BallS := { b with x := b.x + b.vx * dt, y := b.y + b.vy * dt } with hb0
      have h1 := wallLeft_mag b0
      have h2 := wallRight_mag W (wallLeft b0)
      have h3 := wallTop_mag (wallRight W (wallLeft b0))
      rw [h3.1, h3.2, h2.1, h2.2, h1.1, h1.2]
      exact h0
  · intro br
    constructor
    · show (speedAdjust (brickReflect b br)).vx ^ 2 + (speedAdjust (brickReflect b br)).vy ^ 2 = _
      have hs : (speedAdjust (brickReflect b br)).vx = (brickReflect b br).vx ∧
          (speedAdjust (brickReflect b br)).vy = (brickReflect b br).vy := ⟨rfl, rfl⟩
      rw [hs.1, hs.2]
      unfold brickReflect
      split <;> simp
    · show (speedAdjust (brickReflect b br)).speed = _
      have hsp : (brickReflect b br).speed = b.speed := by
        unfold brickReflect; split <;> rfl
      unfold speedAdjust
      rw [hsp]

/-- Witness for C1 (amended) at the unit direction `(3/5, 4/5)`. -/
theorem C1_witness :
    ((3 : ℚ) / 5) ^ 2 + ((4 : ℚ) / 5) ^ 2 = 1 ∧
    ((ballLaunch true (3/5) (4/5) ⟨10, 20, 0, 0, 6, 360, true⟩).vx ^ 2 +
        (ballLaunch true (3/5) (4/5) ⟨10, 20, 0, 0, 6, 360, true⟩).vy ^ 2
        = (ballLaunch true (3/5) (4/5) ⟨10, 20, 0, 0, 6, 360, true⟩).speed ^ 2) ∧
    ((paddleBounce false ⟨340, 564, 120, 16⟩ (3/5) (4/5) ⟨10, 20, 0, 0, 6, 360, true⟩).vx ^ 2 +
        (paddleBounce false ⟨340, 564, 120, 16⟩ (3/5) (4/5) ⟨10, 20, 0, 0, 6, 360, true⟩).vy ^ 2
        = (paddleBounce false ⟨340, 564, 120, 16⟩ (3/5) (4/5) ⟨10, 20, 0, 0, 6, 360, true⟩).speed ^ 2) ∧
    ((speedBoostBall (3/5) (4/5) ⟨10, 20, 0, 0, 6, 360, true⟩).vx ^ 2 +
        (speedBoostBall (3/5) (4/5) ⟨10, 20, 0, 0, 6, 360, true⟩).vy ^ 2
        = (speedBoostBall (3/5) (4/5) ⟨10, 20, 0, 0, 6, 360, true⟩).speed ^ 2) ∧
    (((⟨10, 20, 0, 0, 6, 360, true⟩ : BallS).vx ^ 2 + (⟨10, 20, 0, 0, 6, 360, true⟩ : BallS).vy ^ 2
        = (⟨10, 20, 0, 0, 6, 360, true⟩ : BallS).speed ^ 2 →
      (BallS.updateB 800 (1/60) ⟨10, 20, 0, 0, 6, 360, true⟩).vx ^ 2 +
          (BallS.updateB 800 (1/60) ⟨10, 20, 0, 0, 6, 360, true⟩).vy ^ 2
        = (BallS.updateB 800 (1/60) ⟨10, 20, 0, 0, 6, 360, true⟩).speed ^ 2)) ∧
    (∀ br : BrickS,
      (brickResolve ⟨10, 20, 0, 0, 6, 360, true⟩ br).1.vx ^ 2 +
          (brickResolve ⟨10, 20, 0, 0, 6, 360, true⟩ br).1.vy ^ 2
          = (⟨10, 20, 0, 0, 6, 360, true⟩ : BallS).vx ^ 2 +
            (⟨10, 20, 0, 0, 6, 360, true⟩ : BallS).vy ^ 2 ∧
      (brickResolve ⟨10, 20, 0, 0, 6, 360, true⟩ br).1.speed
          = clamp ((⟨10, 20, 0, 0, 6, 360, true⟩ : BallS).speed * (101 / 100)) 220 900) :=
  ⟨by norm_num,
    C1_speed_invariant_amended (3/5) (4/5) (by norm_num) true ⟨340, 564, 120, 16⟩ 800 (1/60)
      ⟨10, 20, 0, 0, 6, 360, true⟩ |>.1,
    C1_speed_invariant_amended (3/5) (4/5) (by norm_num) false ⟨340, 564, 120, 16⟩ 800 (1/60)
      ⟨10, 20, 0, 0, 6, 360, true⟩ |>.2.1,
    C1_speed_invariant_amended (3/5) (4/5) (by norm_num) true ⟨340, 564, 120, 16⟩ 800 (1/60)
      ⟨10, 20, 0, 0, 6, 360, true⟩ |>.2.2.1,
    C1_speed_invariant_amended (3/5) (4/5) (by norm_num) true ⟨340, 564, 120, 16⟩ 800 (1/60)
      ⟨10, 20, 0, 0, 6, 360, true⟩ |>.2.2.2.1,
    C1_speed_invariant_amended (3/5) (4/5) (by norm_num) true ⟨340, 564, 120, 16⟩ 800 (1/60)
      ⟨10, 20, 0, 0, 6, 360, true⟩ |>.2.2.2.2⟩

/-- The concrete free ball of the C1 counterexample: moving straight up at
360 px/s with `speed = 360`, so the invariant holds before the brick hit. -/
def c1Ball : BallS := ⟨120, 110, 0, -360, 6, 360, false⟩

/-- The concrete alive brick of the C1 counterexample (layout values of
level 1: width `BRICK_W = 84` for an 920-wide canvas, height 22). -/
def c1Brick : BrickS := mkBrick 100 100 84 22 "#ff4dd2" 3

/-- Counterexample to C1 as stated: the ball `c1Ball` is not stuck, collides
with the alive brick `c1Brick`, and satisfies `|v|² = speed²` beforehand;
after the brick-bounce operation of `Game.update` the squared velocity
magnitude (129600 = 360²) differs from the squared speed field
((1818/5)² = 363.6²) — a divergence of several px/s, far beyond
floating-point tolerance. -/
theorem C1_counterexample :
    c1Ball.stuck = false ∧
    c1Brick.alive = true ∧
    circleRectCollision c1Ball.x c1Ball.y c1Ball.radius c1Brick.x c1Brick.y c1Brick.w c1Brick.h
      = true ∧
    c1Ball.vx ^ 2 + c1Ball.vy ^ 2 = c1Ball.speed ^ 2 ∧
    0 < (brickResolve c1Ball c1Brick).1.speed ∧
    (brickResolve c1Ball c1Brick).1.vx ^ 2 + (brickResolve c1Ball c1Brick).1.vy ^ 2
      ≠ (brickResolve c1Ball c1Brick).1.speed ^ 2 := by
  have hcol : circleRectCollision c1Ball.x c1Ball.y c1Ball.radius c1Brick.x c1Brick.y
      c1Brick.w c1Brick.h = true := by
    unfold circleRectCollision clamp c1Ball c1Brick mkBrick
    norm_num
  have hsp : (brickResolve c1Ball c1Brick).1.speed = 1818 / 5 := by
    unfold brickResolve speedAdjust brickReflect brickOverlapX brickOverlapY c1Ball c1Brick
      mkBrick clamp
    norm_num
  have hvx : (brickResolve c1Ball c1Brick).1.vx = 0 := by
    unfold brickResolve speedAdjust brickReflect brickOverlapX brickOverlapY c1Ball c1Brick
      mkBrick
    norm_num
  have hvy : (brickResolve c1Ball c1Brick).1.vy = 360 := by
    unfold brickResolve speedAdjust brickReflect brickOverlapX brickOverlapY c1Ball c1Brick
      mkBrick
    norm_num
  refine ⟨rfl, rfl, hcol, by unfold c1Ball; norm_num, by rw [hsp]; norm_num, ?_⟩
  rw [hsp, hvx, hvy]
  norm_num

/-- Claim C2 (amended): when a ball collides with an alive brick, the brick's
hit-points are decremented by one and the fixed 100-point score gain is
awarded on EVERY hit (also when the brick survives); when the hit-points
reach zero the brick is marked dead, and a power-up of the rolled type spawns
at the brick's center exactly when the destruction roll is below
`POWER_CHANCE`. -/
theorem C2_brick_hit_amended (roll : ℚ) (pt : PKind) (b : BallS) (br : BrickS)
    (_hcol : circleRectCollision b.x b.y b.radius br.x br.y br.w br.h = true)
    (halive : br.alive = true) :
    (brickCollisionStep roll pt b br).2.1.hp = br.hp - 1 ∧
    (br.hp - 1 ≤ 0 → (brickCollisionStep roll pt b br).2.1.alive = false) ∧
    (0 < br.hp - 1 → (brickCollisionStep roll pt b br).2.1.alive = true) ∧
    (brickCollisionStep roll pt b br).2.2.1 = 100 ∧
    ((brickCollisionStep roll pt b br).2.2.2 ≠ none →
      (brickCollisionStep roll pt b br).2.1.alive = false ∧ roll < POWER_CHANCE) ∧
    ((brickCollisionStep roll pt b br).2.1.alive = false → roll < POWER_CHANCE →
      (brickCollisionStep roll pt b br).2.2.2
        = some (mkPowerUp (br.x + br.w / 2) (br.y + br.h / 2) pt)) := by
  have hbr : (brickCollisionStep roll pt b br).2.1 = br.hitB := rfl
  have hhit : br.hitB =
      { br with hp := br.hp - 1, alive := (if br.hp - 1 ≤ 0 then false else br.alive) } := rfl
  refine ⟨by rw [hbr, hhit], ?_, ?_, rfl, ?_, ?_⟩
  · intro h
    rw [hbr, hhit]
    simp [h]
  · intro h
    rw [hbr, hhit]
    have : ¬ br.hp - 1 ≤ 0 := by omega
    simp [this, halive]
  · intro hne
    unfold brickCollisionStep at hne ⊢
    simp only at hne ⊢
    split at hne
    · rename_i hcond
      exact hcond
    · simp at hne
  · intro hdead hroll
    unfold brickCollisionStep
    simp only
    have hcond : (brickResolve b br).2.alive = false ∧ roll < POWER_CHANCE :=
      ⟨hdead, hroll⟩
    rw [if_pos hcond]

/-- Witness for C2 (amended): the C2 counterexample geometry with a 2-hp
brick. -/
theorem C2_witness :
    circleRectCollision (⟨120, 110, 0, -360, 6, 360, false⟩ : BallS).x
        (⟨120, 110, 0, -360, 6, 360, false⟩ : BallS).y
        (⟨120, 110, 0, -360, 6, 360, false⟩ : BallS).radius
        (mkBrick 100 100 84 22 "#7cff6a" 2).x (mkBrick 100 100 84 22 "#7cff6a" 2).y
        (mkBrick 100 100 84 22 "#7cff6a" 2).w (mkBrick 100 100 84 22 "#7cff6a" 2).h = true ∧
    (mkBrick 100 100 84 22 "#7cff6a" 2).alive = true ∧
    ((brickCollisionStep (1/2) PKind.multi ⟨120, 110, 0, -360, 6, 360, false⟩
        (mkBrick 100 100 84 22 "#7cff6a" 2)).2.1.hp = (mkBrick 100 100 84 22 "#7cff6a" 2).hp - 1 ∧
      ((mkBrick 100 100 84 22 "#7cff6a" 2).hp - 1 ≤ 0 →
        (brickCollisionStep (1/2) PKind.multi ⟨120, 110, 0, -360, 6, 360, false⟩
          (mkBrick 100 100 84 22 "#7cff6a" 2)).2.1.alive = false) ∧
      (0 < (mkBrick 100 100 84 22 "#7cff6a" 2).hp - 1 →
        (brickCollisionStep (1/2) PKind.multi ⟨120, 110, 0, -360, 6, 360, false⟩
          (mkBrick 100 100 84 22 "#7cff6a" 2)).2.1.alive = true) ∧
      (brickCollisionStep (1/2) PKind.multi ⟨120, 110, 0, -360, 6, 360, false⟩
          (mkBrick 100 100 84 22 "#7cff6a" 2)).2.2.1 = 100 ∧
      ((brickCollisionStep (1/2) PKind.multi ⟨120, 110, 0, -360, 6, 360, false⟩
          (mkBrick 100 100 84 22 "#7cff6a" 2)).2.2.2 ≠ none →
        (brickCollisionStep (1/2) PKind.multi ⟨120, 110, 0, -360, 6, 360, false⟩
          (mkBrick 100 100 84 22 "#7cff6a" 2)).2.1.alive = false ∧ (1:ℚ)/2 < POWER_CHANCE) ∧
      ((brickCollisionStep (1/2) PKind.multi ⟨120, 110, 0, -360, 6, 360, false⟩
          (mkBrick 100 100 84 22 "#7cff6a" 2)).2.1.alive = false → (1:ℚ)/2 < POWER_CHANCE →
        (brickCollisionStep (1/2) PKind.multi ⟨120, 110, 0, -360, 6, 360, false⟩
            (mkBrick 100 100 84 22 "#7cff6a" 2)).2.2.2
          = some (mkPowerUp ((mkBrick 100 100 84 22 "#7cff6a" 2).x +
              (mkBrick 100 100 84 22 "#7cff6a" 2).w / 2)
              ((mkBrick 100 100 84 22 "#7cff6a" 2).y + (mkBrick 100 100 84 22 "#7cff6a" 2).h / 2)
              PKind.multi))) :=
  ⟨by unfold circleRectCollision clamp mkBrick; norm_num,
    rfl,
    C2_brick_hit_amended (1/2) PKind.multi ⟨120, 110, 0, -360, 6, 360, false⟩
      (mkBrick 100 100 84 22 "#7cff6a" 2)
      (by unfold circleRectCollision clamp mkBrick; norm_num) rfl⟩

/-- The concrete free ball of the C2 counterexample. -/
def c2Ball : BallS := ⟨120, 110, 0, -360, 6, 360, false⟩

/-- The concrete alive 2-hit-point brick of the C2 counterexample (the
tougher bricks of level 2, game2.js:418). -/
def c2Brick : BrickS := mkBrick 100 100 84 22 "#7cff6a" 2

/-- Counterexample to C2 as stated: the ball `c2Ball` collides with the
alive 2-hit-point brick `c2Brick`; resolving the hit leaves the brick alive
(hp 1), yet the step still awards the fixed 100-point score gain — the claim
says a hit that leaves the brick alive awards no score. -/
theorem C2_counterexample :
    circleRectCollision c2Ball.x c2Ball.y c2Ball.radius c2Brick.x c2Brick.y c2Brick.w c2Brick.h
      = true ∧
    c2Brick.alive = true ∧
    c2Brick.hp = 2 ∧
    (brickCollisionStep (1/2) PKind.multi c2Ball c2Brick).2.1.alive = true ∧
    (brickCollisionStep (1/2) PKind.multi c2Ball c2Brick).2.1.hp = 1 ∧
    (brickCollisionStep (1/2) PKind.multi c2Ball c2Brick).2.2.1 = 100 ∧
    (brickCollisionStep (1/2) PKind.multi c2Ball c2Brick).2.2.1 ≠ 0 := by
  refine ⟨by unfold circleRectCollision clamp c2Ball c2Brick mkBrick; norm_num,
    rfl, rfl, rfl, rfl, rfl, ?_⟩
  rw [show (brickCollisionStep (1/2) PKind.multi c2Ball c2Brick).2.2.1 = 100 from rfl]
  norm_num

/-- Claim C3 (amended): the paddle bounce, brick bounce, speed boost and
multi-ball spawn each clamp the resulting scalar speed into their own fixed
band — `[200, 820]`, `[220, 900]`, `[300, 1000]` and `[260, 920]`
respectively (four different bands, not one) — while the ball launch
multiplies the speed by 1.08 (boost active) or leaves it unchanged, with no
clamping at all. -/
theorem C3_speed_bands_amended (boost : Bool) (r : RectS) (c s : ℚ) (b : BallS)
    (br : BrickS) (dirs : List ((ℚ × ℚ) × (ℚ × ℚ))) (balls : List BallS) :
    (200 ≤ (paddleBounce boost r c s b).speed ∧ (paddleBounce boost r c s b).speed ≤ 820) ∧
    (220 ≤ (brickResolve b br).1.speed ∧ (brickResolve b br).1.speed ≤ 900) ∧
    (300 ≤ (speedBoostBall c s b).speed ∧ (speedBoostBall c s b).speed ≤ 1000) ∧
    (∀ nb ∈ multiBallNewBalls dirs balls, 260 ≤ nb.speed ∧ nb.speed ≤ 920) ∧
    (ballLaunch true c s b).speed = b.speed * (27 / 25) ∧
    (ballLaunch false c s b).speed = b.speed := by
  refine ⟨?_, ?_, ?_, ?_, rfl, by simp [ballLaunch]⟩
  · exact ⟨clamp_lower _ _ _, clamp_upper _ _ _ (by norm_num)⟩
  · have hsp : (brickResolve b br).1.speed
        = clamp ((brickReflect b br).speed * (101 / 100)) 220 900 := rfl
    rw [hsp]
    exact ⟨clamp_lower _ _ _, clamp_upper _ _ _ (by norm_num)⟩
  · exact ⟨clamp_lower _ _ _, clamp_upper _ _ _ (by norm_num)⟩
  · intro nb hnb
    unfold multiBallNewBalls at hnb
    rw [List.mem_flatMap] at hnb
    obtain ⟨p, _, hmem⟩ := hnb
    simp only [List.mem_cons, List.mem_singleton] at hmem
    rcases hmem with h | h | h
    · rw [h]
      exact ⟨clamp_lower _ _ _, clamp_upper _ _ _ (by norm_num)⟩
    · rw [h]
      exact ⟨clamp_lower _ _ _, clamp_upper _ _ _ (by norm_num)⟩
    · exact absurd h (List.not_mem_nil nb)

/-- Witness for C3 (amended) at a concrete boosted ball. -/
theorem C3_witness :
    ((200 ≤ (paddleBounce true ⟨340, 564, 120, 16⟩ 0 (-1) ⟨10, 20, 0, -360, 6, 360, false⟩).speed ∧
        (paddleBounce true ⟨340, 564, 120, 16⟩ 0 (-1) ⟨10, 20, 0, -360, 6, 360, false⟩).speed ≤ 820) ∧
      (220 ≤ (brickResolve ⟨10, 20, 0, -360, 6, 360, false⟩ (mkBrick 0 0 84 22 "#33e0ff" 1)).1.speed ∧
        (brickResolve ⟨10, 20, 0, -360, 6, 360, false⟩ (mkBrick 0 0 84 22 "#33e0ff" 1)).1.speed ≤ 900) ∧
      (300 ≤ (speedBoostBall 0 (-1) ⟨10, 20, 0, -360, 6, 360, false⟩).speed ∧
        (speedBoostBall 0 (-1) ⟨10, 20, 0, -360, 6, 360, false⟩).speed ≤ 1000) ∧
      (∀ nb ∈ multiBallNewBalls [((0, -1), (0, -1))] [⟨10, 20, 0, -360, 6, 360, false⟩],
        260 ≤ nb.speed ∧ nb.speed ≤ 920) ∧
      (ballLaunch true 0 (-1) ⟨10, 20, 0, -360, 6, 360, false⟩).speed = 360 * (27 / 25) ∧
      (ballLaunch false 0 (-1) ⟨10, 20, 0, -360, 6, 360, false⟩).speed = 360) :=
  C3_speed_bands_amended true ⟨340, 564, 120, 16⟩ 0 (-1) ⟨10, 20, 0, -360, 6, 360, false⟩
    (mkBrick 0 0 84 22 "#33e0ff" 1) [((0, -1), (0, -1))] [⟨10, 20, 0, -360, 6, 360, false⟩]

/-- The stuck ball of the C3 counterexample: its scalar speed is 1000, the
value produced by repeated speed-boost collections (clamped at 1000). -/
def c3Ball : BallS := ⟨400, 556, 0, 0, 6, 1000, true⟩

/-- Counterexample to C3 as stated: launching `c3Ball` while the speed boost
is active multiplies its speed by 1.08 with no clamping, giving 1080 — above
1000, the largest upper clamp bound appearing anywhere in `Game.update`
(bands `[200,820]`, `[220,900]`, `[260,920]`, `[300,1000]`), so the launch
operation leaves the speed inside no defined band. -/
theorem C3_counterexample :
    c3Ball.stuck = true ∧
    (ballLaunch true 0 (-1) c3Ball).speed = 1080 ∧
    ¬ (ballLaunch true 0 (-1) c3Ball).speed ≤ 1000 := by
  refine ⟨rfl, ?_, ?_⟩
  · show c3Ball.speed * (27 / 25) = 1080
    unfold c3Ball
    norm_num
  · show ¬ c3Ball.speed * (27 / 25) ≤ 1000
    unfold c3Ball
    norm_num

/-- The timer phase of `Paddle.update` never moves the paddle. -/
theorem paddleTimer_x (dt : ℚ) (p : PaddleS) : (paddleTimer dt p).x = p.x := by
  unfold paddleTimer
  split_ifs <;> rfl

/-- The timer phase leaves the width unchanged or reverts it to the base. -/
theorem paddleTimer_width (dt : ℚ) (p : PaddleS) :
    (paddleTimer dt p).width = p.width ∨ (paddleTimer dt p).width = PADDLE_BASE_WIDTH := by
  unfold paddleTimer
  split_ifs with h1 h2
  · right; rfl
  · left; rfl
  · left; rfl

/-- The movement phase of `Paddle.update` never changes the width. -/
theorem paddleMove_width (W dt : ℚ) (inp : InputS) (p : PaddleS) :
    (paddleMove W dt inp p).width = p.width := by
  unfold paddleMove
  split_ifs <;> rfl

/-- A convex step from `x` toward a target inside `[lo, hi]` stays inside. -/
theorem ease_mem (x t τ lo hi : ℚ) (h0 : 0 ≤ τ) (h1 : τ ≤ 1)
    (hx1 : lo ≤ x) (hx2 : x ≤ hi) (ht1 : lo ≤ t) (ht2 : t ≤ hi) :
    lo ≤ x + (t - x) * τ ∧ x + (t - x) * τ ≤ hi :=
  ⟨by nlinarith, by nlinarith⟩

/-- Claim C5 (amended): every `Paddle.update` without active pointer drag
clamps `x` into `[12, W - 12 - width]`, and pointer-drag easing keeps `x` in
the band whenever it already lies inside; but `Paddle.applyPower` widens the
paddle to `1.6 ×` base WITHOUT re-clamping `x`, so on the frame a
paddle-widen power-up is collected near the right edge the invariant is
violated (see the counterexample) until a later non-pointer update re-clamps
it. -/
theorem C5_paddle_bounds_amended (W dt : ℚ) (inp : InputS) (p : PaddleS)
    (hw1 : PADDLE_BASE_WIDTH ≤ p.width) (hw2 : p.width ≤ W - 24) :
    (inp.pointerDown = false →
      12 ≤ (PaddleS.updateP W dt inp p).x ∧
      (PaddleS.updateP W dt inp p).x ≤ W - 12 - (PaddleS.updateP W dt inp p).width) ∧
    (inp.pointerDown = true → 12 ≤ p.x → p.x ≤ W - 12 - p.width →
      12 ≤ (PaddleS.updateP W dt inp p).x ∧
      (PaddleS.updateP W dt inp p).x ≤ W - 12 - (PaddleS.updateP W dt inp p).width) ∧
    (PaddleS.applyPowerP true p).x = p.x ∧
    (PaddleS.applyPowerP true p).width = PADDLE_BASE_WIDTH * (8 / 5) := by
  have hb : (12 : ℚ) ≤ W - 12 - p.width := by linarith
  have hxeq : (PaddleS.updateP W dt inp p).x = (paddleMove W dt inp p).x :=
    paddleTimer_x dt _
  have hwle : (PaddleS.updateP W dt inp p).width ≤ p.width := by
    rcases paddleTimer_width dt (paddleMove W dt inp p) with h | h
    · rw [show (PaddleS.updateP W dt inp p).width = (paddleTimer dt (paddleMove W dt inp p)).width
        from rfl, h, paddleMove_width]
    · rw [show (PaddleS.updateP W dt inp p).width = (paddleTimer dt (paddleMove W dt inp p)).width
        from rfl, h]
      exact hw1
  refine ⟨?_, ?_, rfl, rfl⟩
  · intro hpd
    rw [hxeq]
    have key : 12 ≤ (paddleMove W dt inp p).x ∧ (paddleMove W dt inp p).x ≤ W - 12 - p.width := by
      unfold paddleMove
      simp only [hpd, Bool.false_eq_true, if_false]
      split_ifs <;> exact ⟨clamp_lower _ _ _, clamp_upper _ _ _ hb⟩
    exact ⟨key.1, le_trans key.2 (by linarith)⟩
  · intro hpd hx1 hx2
    rw [hxeq]
    have hτ : 0 ≤ clamp (dt * 12) 0 1 ∧ clamp (dt * 12) 0 1 ≤ 1 :=
      ⟨clamp_lower _ _ _, clamp_upper _ _ _ (by norm_num)⟩
    have htg : 12 ≤ clamp (inp.pointerX - p.width / 2) 12 (W - 12 - p.width) ∧
        clamp (inp.pointerX - p.width / 2) 12 (W - 12 - p.width) ≤ W - 12 - p.width :=
      ⟨clamp_lower _ _ _, clamp_upper _ _ _ hb⟩
    have hmove : (paddleMove W dt inp p).x
        = p.x + (clamp (inp.pointerX - p.width / 2) 12 (W - 12 - p.width) - p.x)
            * clamp (dt * 12) 0 1 := by
      simp [paddleMove, hpd]
    rw [hmove]
    have hme := ease_mem p.x (clamp (inp.pointerX - p.width / 2) 12 (W - 12 - p.width))
      (clamp (dt * 12) 0 1) 12 (W - 12 - p.width) hτ.1 hτ.2 hx1 hx2 htg.1 htg.2
    exact ⟨hme.1, le_trans hme.2 (by linarith)⟩

/-- Witness for C5 (amended) at the base paddle of an 800-wide field. -/
theorem C5_witness :
    PADDLE_BASE_WIDTH ≤ (mkPaddle 800 600).width ∧
    (mkPaddle 800 600).width ≤ 800 - 24 ∧
    ((InputS.mk false true false false 0).pointerDown = false →
      12 ≤ (PaddleS.updateP 800 (1/60) (InputS.mk false true false false 0) (mkPaddle 800 600)).x ∧
      (PaddleS.updateP 800 (1/60) (InputS.mk false true false false 0) (mkPaddle 800 600)).x
        ≤ 800 - 12 - (PaddleS.updateP 800 (1/60) (InputS.mk false true false false 0) (mkPaddle 800 600)).width) ∧
    ((InputS.mk false true false false 0).pointerDown = true →
      12 ≤ (mkPaddle 800 600).x → (mkPaddle 800 600).x ≤ 800 - 12 - (mkPaddle 800 600).width →
      12 ≤ (PaddleS.updateP 800 (1/60) (InputS.mk false true false false 0) (mkPaddle 800 600)).x ∧
      (PaddleS.updateP 800 (1/60) (InputS.mk false true false false 0) (mkPaddle 800 600)).x
        ≤ 800 - 12 - (PaddleS.updateP 800 (1/60) (InputS.mk false true false false 0) (mkPaddle 800 600)).width) ∧
    (PaddleS.applyPowerP true (mkPaddle 800 600)).x = (mkPaddle 800 600).x ∧
    (PaddleS.applyPowerP true (mkPaddle 800 600)).width = PADDLE_BASE_WIDTH * (8 / 5) :=
  ⟨by norm_num [mkPaddle, PADDLE_BASE_WIDTH],
    by norm_num [mkPaddle, PADDLE_BASE_WIDTH],
    C5_paddle_bounds_amended 800 (1/60) (InputS.mk false true false false 0) (mkPaddle 800 600)
      (by norm_num [mkPaddle, PADDLE_BASE_WIDTH])
      (by norm_num [mkPaddle, PADDLE_BASE_WIDTH]) |>.1,
    C5_paddle_bounds_amended 800 (1/60) (InputS.mk false true false false 0) (mkPaddle 800 600)
      (by norm_num [mkPaddle, PADDLE_BASE_WIDTH])
      (by norm_num [mkPaddle, PADDLE_BASE_WIDTH]) |>.2.1,
    C5_paddle_bounds_amended 800 (1/60) (InputS.mk false true false false 0) (mkPaddle 800 600)
      (by norm_num [mkPaddle, PADDLE_BASE_WIDTH])
      (by norm_num [mkPaddle, PADDLE_BASE_WIDTH]) |>.2.2.1,
    C5_paddle_bounds_amended 800 (1/60) (InputS.mk false true false false 0) (mkPaddle 800 600)
      (by norm_num [mkPaddle, PADDLE_BASE_WIDTH])
      (by norm_num [mkPaddle, PADDLE_BASE_WIDTH]) |>.2.2.2⟩

/-- The concrete paddle of the C5 counterexample: base width, flush against
the right margin of an 800-wide field (`x = 800 - 12 - 120`). -/
def c5Paddle : PaddleS :=
  { width := 120, height := 16, x := 668, y := 564, speed := 960, expireTimer := 0 }

/-- Counterexample to C5 as stated: `c5Paddle` satisfies the invariant for
the 800-wide field, but immediately after `applyPower('paddle')` (the
paddle-widen power-up) its unchanged `x = 668` exceeds
`W - 12 - width = 800 - 12 - 192 = 596`, so on that frame the paddle is out
of the claimed band. -/
theorem C5_counterexample :
    (12 ≤ c5Paddle.x ∧ c5Paddle.x ≤ 800 - 12 - c5Paddle.width) ∧
    (PaddleS.applyPowerP true c5Paddle).x = c5Paddle.x ∧
    ¬ (PaddleS.applyPowerP true c5Paddle).x
        ≤ 800 - 12 - (PaddleS.applyPowerP true c5Paddle).width := by
  refine ⟨⟨by norm_num [c5Paddle], by norm_num [c5Paddle]⟩, rfl, ?_⟩
  show ¬ c5Paddle.x ≤ 800 - 12 - (PADDLE_BASE_WIDTH * (8 / 5))
  norm_num [c5Paddle, PADDLE_BASE_WIDTH]

/-- The spawned-ball list of the `multi` power-up has twice the length of the
zipped source list. -/
theorem multiBallNewBalls_length (dirs : List ((ℚ × ℚ) × (ℚ × ℚ))) (balls : List BallS) :
    (multiBallNewBalls dirs balls).length = 2 * (balls.zip dirs).length := by
  unfold multiBallNewBalls
  induction balls.zip dirs with
  | nil => rfl
  | cons h t ih =>
    rw [List.flatMap_cons, List.length_append, ih]
    simp only [List.length_cons, List.length_nil]
    omega

/-- Claim C7: collecting a multi-ball power-up spawns exactly two additional
balls per current ball (3 total per source ball: with exactly 1 ball active,
exactly 3 are active afterwards), each positioned 8 px left/right of its
source ball at the same height, free (not stuck), with speed
`clamp(source speed × 1.02, 260, 920)`, and velocity along the supplied
`±0.18`-offset heading directions. -/
theorem C7_multiBall (dirs : List ((ℚ × ℚ) × (ℚ × ℚ))) (balls : List BallS)
    (hlen : dirs.length = balls.length) :
    (applyMultiBall dirs balls).length = 3 * balls.length ∧
    (balls.length = 1 → (applyMultiBall dirs balls).length = 3) ∧
    (∀ nb ∈ multiBallNewBalls dirs balls, ∃ b ∈ balls,
      nb.speed = clamp (b.speed * (102 / 100)) 260 920 ∧
      (nb.x = b.x + 8 ∨ nb.x = b.x - 8) ∧ nb.y = b.y ∧ nb.stuck = false) := by
  have hzl : (balls.zip dirs).length = balls.length := by
    rw [List.length_zip, hlen, min_self]
  have hl : (applyMultiBall dirs balls).length = 3 * balls.length := by
    unfold applyMultiBall
    rw [List.length_append, multiBallNewBalls_length, hzl]
    omega
  refine ⟨hl, fun h1 => by rw [hl, h1], ?_⟩
  intro nb hnb
  unfold multiBallNewBalls at hnb
  rw [List.mem_flatMap] at hnb
  obtain ⟨q, hq, hmem⟩ := hnb
  obtain ⟨b, u⟩ := q
  have hbmem : b ∈ balls := (List.of_mem_zip hq).1
  simp only [List.mem_cons, List.not_mem_nil, or_false] at hmem
  rcases hmem with h | h
  · exact ⟨b, hbmem, by rw [h]; exact rfl, Or.inl (by rw [h]; rfl), by rw [h]; rfl,
      by rw [h]; rfl⟩
  · exact ⟨b, hbmem, by rw [h]; exact rfl, Or.inr (by rw [h]; rfl), by rw [h]; rfl,
      by rw [h]; rfl⟩

/-- Witness for C7: one free ball and one direction pair give three balls. -/
theorem C7_witness :
    [((0, -1), (0, -1))].length = [(⟨400, 300, 0, -360, 6, 360, false⟩ : BallS)].length ∧
    ((applyMultiBall [((0, -1), (0, -1))] [(⟨400, 300, 0, -360, 6, 360, false⟩ : BallS)]).length
        = 3 * [(⟨400, 300, 0, -360, 6, 360, false⟩ : BallS)].length ∧
      ([(⟨400, 300, 0, -360, 6, 360, false⟩ : BallS)].length = 1 →
        (applyMultiBall [((0, -1), (0, -1))] [(⟨400, 300, 0, -360, 6, 360, false⟩ : BallS)]).length
          = 3) ∧
      (∀ nb ∈ multiBallNewBalls [((0, -1), (0, -1))]
          [(⟨400, 300, 0, -360, 6, 360, false⟩ : BallS)],
        ∃ b ∈ [(⟨400, 300, 0, -360, 6, 360, false⟩ : BallS)],
          nb.speed = clamp (b.speed * (102 / 100)) 260 920 ∧
          (nb.x = b.x + 8 ∨ nb.x = b.x - 8) ∧ nb.y = b.y ∧ nb.stuck = false)) :=
  ⟨rfl, C7_multiBall [((0, -1), (0, -1))] [(⟨400, 300, 0, -360, 6, 360, false⟩ : BallS)] rfl⟩

/-- Indexing stays in the left part of an append below its length. -/
theorem getD_append_lt {α : Type} (l l2 : List α) (d : α) :
    ∀ n, n < l.length → (l ++ l2).getD n d = l.getD n d := by
  induction l with
  | nil => intro n h; simp at h
  | cons hd tl ih =>
    intro n h
    cases n with
    | zero => rfl
    | succ m =>
      have hm : m < tl.length := by simpa using h
      simpa using ih m hm

/-- Indexing at `l.length + n` in an append reads the right part at `n`. -/
theorem getD_append_add {α : Type} (l l2 : List α) (d : α) :
    ∀ n, (l ++ l2).getD (l.length + n) d = l2.getD n d := by
  induction l with
  | nil => intro n; simp
  | cons hd tl ih =>
    intro n
    have h1 : (hd :: tl).length + n = (tl.length + n) + 1 := by
      simp only [List.length_cons]
      omega
    rw [h1]
    simpa using ih n

/-- `List.set` does not affect reads at other indices. -/
theorem getD_set_ne {α : Type} (x d : α) :
    ∀ (l : List α) (a n : ℕ), a ≠ n → (l.set a x).getD n d = l.getD n d := by
  intro l
  induction l with
  | nil => intro a n _; simp
  | cons hd tl ih =>
    intro a n h
    cases a with
    | zero =>
      cases n with
      | zero => exact absurd rfl h
      | succ m => simp
    | succ a2 =>
      cases n with
      | zero => simp
      | succ m =>
        have hne : a2 ≠ m := by omega
        simpa using ih a2 m hne

/-- A within-bounds `getD` result is a member of the list. -/
theorem getD_mem {α : Type} (d : α) :
    ∀ (l : List α) (i : ℕ), i < l.length → l.getD i d ∈ l := by
  intro l
  induction l with
  | nil => intro i h; simp at h
  | cons hd tl ih =>
    intro i h
    cases i with
    | zero => exact List.mem_cons_self hd tl
    | succ m =>
      have hm : m < tl.length := by simpa using h
      exact List.mem_cons_of_mem hd (by simpa using ih m hm)

/-- `getD` on a mapped list below its length applies the function. -/
theorem getD_map_lt {α β : Type} (f : α → β) (d : α) (e : β) :
    ∀ (l : List α) (i : ℕ), i < l.length → (l.map f).getD i e = f (l.getD i d) := by
  intro l
  induction l with
  | nil => intro i h; simp at h
  | cons hd tl ih =>
    intro i h
    cases i with
    | zero => rfl
    | succ m =>
      have hm : m < tl.length := by simpa using h
      simpa using ih m hm

/-- `addrRange` has the requested length. -/
theorem addrRange_length : ∀ (L s : ℕ), (addrRange s L).length = L := by
  intro L
  induction L with
  | zero => intro s; rfl
  | succ n ih => intro s; simp [addrRange, ih]

/-- Membership in `addrRange s L` is the interval `[s, s + L)`. -/
theorem mem_addrRange : ∀ (L s a : ℕ), a ∈ addrRange s L ↔ s ≤ a ∧ a < s + L := by
  intro L
  induction L with
  | zero => intro s a; simp [addrRange]
  | succ n ih =>
    intro s a
    simp only [addrRange, List.mem_cons, ih]
    omega

/-- The `i`-th fresh address is `s + i`. -/
theorem addrRange_getD : ∀ (L s i : ℕ), i < L → (addrRange s L).getD i 0 = s + i := by
  intro L
  induction L with
  | zero => intro s i h; exact absurd h (Nat.not_lt_zero i)
  | succ n ih =>
    intro s i h
    cases i with
    | zero => rfl
    | succ m =>
      have hm : m < n := by omega
      have h2 := ih (s + 1) m hm
      simp only [addrRange, List.getD_cons_succ, h2]
      omega

/-- The JSON-reviver clone reconstructs the very same field values. -/
theorem cloneBrick_eq (br : BrickS) : cloneBrick br = br := rfl

/-- Cloning every brick of a list reproduces it value-for-value. -/
theorem map_cloneBrick : ∀ l : List BrickS, l.map cloneBrick = l := by
  intro l
  induction l with
  | nil => rfl
  | cons hd tl ih => simp [cloneBrick_eq, ih]

/-- Claim C8: calling `getBricksForLevel` twice with the same valid level
index yields two brick lists of identical length whose bricks carry the very
same field values (position, size, color, hit-points, alive flag) as the
stored template; the two lists and the template occupy pairwise distinct
store addresses (no shared mutable instances), and mutating any brick of the
first list leaves every brick of the second list and every template brick
unchanged. -/
theorem C8_level_clone (levels : List (List ℕ)) (n : ℕ) (st st1 st2 : List BrickS)
    (A1 A2 : List ℕ)
    (hbound : ∀ a ∈ levels.getD (n - 1) [], a < st.length)
    (h1 : getBricksForLevelH levels n st = (st1, A1))
    (h2 : getBricksForLevelH levels n st1 = (st2, A2)) :
    (A1.length = (levels.getD (n - 1) []).length ∧
     A2.length = (levels.getD (n - 1) []).length) ∧
    (∀ i, i < (levels.getD (n - 1) []).length →
      storeGet st2 (A1.getD i 0) = storeGet st ((levels.getD (n - 1) []).getD i 0) ∧
      storeGet st2 (A2.getD i 0) = storeGet st ((levels.getD (n - 1) []).getD i 0)) ∧
    (∀ a1 ∈ A1, ∀ a2 ∈ A2, a1 ≠ a2) ∧
    (∀ a1 ∈ A1, a1 ∉ levels.getD (n - 1) []) ∧
    (∀ a2 ∈ A2, a2 ∉ levels.getD (n - 1) []) ∧
    (∀ a1 ∈ A1, ∀ f : BrickS → BrickS,
      (∀ a2 ∈ A2, storeGet (mutateAt st2 a1 f) a2 = storeGet st2 a2) ∧
      (∀ a ∈ levels.getD (n - 1) [],
        storeGet (mutateAt st2 a1 f) a = storeGet st a)) := by
  rw [getBricksForLevelH, allocBricks, map_cloneBrick, Prod.mk.injEq] at h1 h2
  obtain ⟨hst1, hA1⟩ := h1
  obtain ⟨hst2, hA2⟩ := h2
  rw [List.length_map] at hA1 hA2
  have hlen1 : st1.length
      = st.length + (levels.getD (n - 1) []).length := by
    rw [← hst1, List.length_append, List.length_map]
  have hget1 : ∀ a, a < st.length → storeGet st1 a = storeGet st a := by
    intro a ha
    rw [← hst1]
    exact getD_append_lt st _ defaultBrick a ha
  have hget2 : ∀ a, a < st1.length → storeGet st2 a = storeGet st1 a := by
    intro a ha
    rw [← hst2]
    exact getD_append_lt st1 _ defaultBrick a ha
  have htv : ∀ i, i < (levels.getD (n - 1) []).length →
      (levels.getD (n - 1) []).getD i 0 < st.length := by
    intro i hi
    exact hbound _ (getD_mem 0 _ i hi)
  have hfresh1 : ∀ i, i < (levels.getD (n - 1) []).length →
      storeGet st1 (st.length + i) = storeGet st ((levels.getD (n - 1) []).getD i 0) := by
    intro i hi
    rw [← hst1]
    show (st ++ (levels.getD (n - 1) []).map (storeGet st)).getD (st.length + i) defaultBrick = _
    rw [getD_append_add st _ defaultBrick i]
    exact getD_map_lt (storeGet st) 0 defaultBrick _ i hi
  have hfresh2 : ∀ i, i < (levels.getD (n - 1) []).length →
      storeGet st2 (st1.length + i) = storeGet st ((levels.getD (n - 1) []).getD i 0) := by
    intro i hi
    rw [← hst2]
    show (st1 ++ (levels.getD (n - 1) []).map (storeGet st1)).getD (st1.length + i) defaultBrick
        = _
    rw [getD_append_add st1 _ defaultBrick i]
    rw [getD_map_lt (storeGet st1) 0 defaultBrick _ i hi]
    exact hget1 _ (htv i hi)
  have hA1mem : ∀ a1 ∈ A1, st.length ≤ a1 ∧ a1 < st1.length := by
    intro a1 ha1
    rw [← hA1] at ha1
    have := (mem_addrRange _ _ _).1 ha1
    omega
  have hA2mem : ∀ a2 ∈ A2, st1.length ≤ a2 ∧
      a2 < st1.length + (levels.getD (n - 1) []).length := by
    intro a2 ha2
    rw [← hA2] at ha2
    exact (mem_addrRange _ _ _).1 ha2
  refine ⟨⟨by rw [← hA1, addrRange_length], by rw [← hA2, addrRange_length]⟩, ?_, ?_, ?_, ?_, ?_⟩
  · intro i hi
    constructor
    · rw [← hA1, addrRange_getD _ _ i hi]
      rw [hget2 _ (by omega)]
      exact hfresh1 i hi
    · rw [← hA2, addrRange_getD _ _ i hi]
      exact hfresh2 i hi
  · intro a1 ha1 a2 ha2
    have m1 := hA1mem a1 ha1
    have m2 := hA2mem a2 ha2
    omega
  · intro a1 ha1 hmem
    have m1 := hA1mem a1 ha1
    have := hbound a1 hmem
    omega
  · intro a2 ha2 hmem
    have m2 := hA2mem a2 ha2
    have := hbound a2 hmem
    omega
  · intro a1 ha1 f
    have m1 := hA1mem a1 ha1
    constructor
    · intro a2 ha2
      have m2 := hA2mem a2 ha2
      show (st2.set a1 (f (storeGet st2 a1))).getD a2 defaultBrick = _
      exact getD_set_ne _ defaultBrick st2 a1 a2 (by omega)
    · intro a hmem
      have ha := hbound a hmem
      show (st2.set a1 (f (storeGet st2 a1))).getD a defaultBrick = _
      rw [getD_set_ne _ defaultBrick st2 a1 a (by omega)]
      rw [show st2.getD a defaultBrick = storeGet st2 a from rfl]
      rw [hget2 _ (by omega), hget1 _ ha]

/-- Witness for C8: a one-level, one-brick template stored at address 0; the
two calls allocate addresses 1 and 2. -/
theorem C8_witness :
    (∀ a ∈ ([[0]] : List (List ℕ)).getD (1 - 1) [], a < ([defaultBrick] : List BrickS).length) ∧
    getBricksForLevelH [[0]] 1 [defaultBrick] = ([defaultBrick, defaultBrick], [1]) ∧
    getBricksForLevelH [[0]] 1 [defaultBrick, defaultBrick]
      = ([defaultBrick, defaultBrick, defaultBrick], [2]) ∧
    ((([1] : List ℕ).length = (([[0]] : List (List ℕ)).getD (1 - 1) []).length ∧
      ([2] : List ℕ).length = (([[0]] : List (List ℕ)).getD (1 - 1) []).length) ∧
     (∀ i, i < (([[0]] : List (List ℕ)).getD (1 - 1) []).length →
        storeGet [defaultBrick, defaultBrick, defaultBrick] (([1] : List ℕ).getD i 0)
          = storeGet [defaultBrick] ((([[0]] : List (List ℕ)).getD (1 - 1) []).getD i 0) ∧
        storeGet [defaultBrick, defaultBrick, defaultBrick] (([2] : List ℕ).getD i 0)
          = storeGet [defaultBrick] ((([[0]] : List (List ℕ)).getD (1 - 1) []).getD i 0)) ∧
     (∀ a1 ∈ ([1] : List ℕ), ∀ a2 ∈ ([2] : List ℕ), a1 ≠ a2) ∧
     (∀ a1 ∈ ([1] : List ℕ), a1 ∉ ([[0]] : List (List ℕ)).getD (1 - 1) []) ∧
     (∀ a2 ∈ ([2] : List ℕ), a2 ∉ ([[0]] : List (List ℕ)).getD (1 - 1) []) ∧
     (∀ a1 ∈ ([1] : List ℕ), ∀ f : BrickS → BrickS,
       (∀ a2 ∈ ([2] : List ℕ),
         storeGet (mutateAt [defaultBrick, defaultBrick, defaultBrick] a1 f) a2
           = storeGet [defaultBrick, defaultBrick, defaultBrick] a2) ∧
       (∀ a ∈ ([[0]] : List (List ℕ)).getD (1 - 1) [],
         storeGet (mutateAt [defaultBrick, defaultBrick, defaultBrick] a1 f) a
           = storeGet [defaultBrick] a))) :=
  ⟨by decide, rfl, rfl,
    C8_level_clone [[0]] 1 [defaultBrick] [defaultBrick, defaultBrick]
      [defaultBrick, defaultBrick, defaultBrick] [1] [2] (by decide) rfl rfl⟩

end NeonBreak
